import Mathlib

/-!
Verification development for the single-file Streamlit EDA dashboard
`eda_app_downloadable.py`.  The script is a thin reactive UI layer: it
loads an uploaded file into a dataframe, lets the user pick one column,
and dispatches on the column's dtype (`pd.api.types.is_numeric_dtype`)
between a numeric branch (histogram + box plot, optional scatter against
a second numeric column) and an `else` branch (category counts via
`value_counts`, optional per-category box plot against a numeric column).
Chart images are offered through `create_download_button` as PNG files.

The shallow embedding below mirrors that script.  Columns carry their
pandas-inferred dtype as a tag; cell values are `Option`-wrapped (a
`none` is a pandas null, which `value_counts` and `nunique` skip).  Each
user-visible effect of one analysis pass (a rendered chart, a download
button, an `st.warning`, an `st.info`, an `st.dataframe` table) becomes
one `UIEvent` in an ordered list; plain `st.write`/`st.markdown` text is
not modelled.  Looking up an absent column (a pandas `KeyError`) is
embedded as `Except.error AnalysisError.invalidColumn`, the spec's name
for that failure; `AnalysisError.insufficientData` is the spec's other
error and the theorems below examine which inputs (if any) produce it.
-/

namespace EDA

/-- Pandas-inferred column dtype together with the column's data, as the
script observes it: numeric columns hold rational values, categorical and
datetime columns hold their values as strings (object dtype).  Only the
numeric / non-numeric distinction is ever tested by the script. -/
inductive ColData where
  | numericData (vals : List (Option ℚ))
  | categoricalData (vals : List (Option String))
  | datetimeData (vals : List (Option String))
deriving DecidableEq, Repr

/-- One named dataframe column. -/
structure Column where
  name : String
  data : ColData
deriving DecidableEq, Repr

/-- A dataframe: an ordered list of named, typed columns. -/
abbrev Table := List Column

/-- Embedding of `pd.api.types.is_numeric_dtype(df[col])`. -/
def is_numeric_dtype (c : Column) : Bool :=
  match c.data with
  | .numericData _ => true
  | _ => false

/-- Value list of a non-numeric column, as seen by the `else` branch
(`value_counts` runs over the object values; for a numeric column this
function is never consulted). -/
def strVals (c : Column) : List (Option String) :=
  match c.data with
  | .numericData _ => []
  | .categoricalData v => v
  | .datetimeData v => v

/-- Value list of a numeric column (empty for non-numeric columns, which
never reach the numeric branch). -/
def numValsD (c : Column) : List (Option ℚ) :=
  match c.data with
  | .numericData v => v
  | _ => []

/-- Number of cells (rows) stored in a column. -/
def colLen (c : Column) : Nat :=
  match c.data with
  | .numericData v => v.length
  | .categoricalData v => v.length
  | .datetimeData v => v.length

/-- The dtype tag alone: true exactly on datetime columns. -/
def isDatetimeDtype (c : Column) : Bool :=
  match c.data with
  | .datetimeData _ => true
  | _ => false

/-- Embedding of `df.columns`: the list of column names, in table
order. -/
def columnNames (df : Table) : List String := df.map Column.name

/-- Embedding of `df[name]`: the first column carrying that name, or
`none` when the name is absent (pandas would raise `KeyError`). -/
def getCol (df : Table) (name : String) : Option Column :=
  df.find? (fun c => c.name == name)

/-- Embedding of `df.select_dtypes(include=np.number).columns.tolist()`. -/
def numeric_cols (df : Table) : List String :=
  (df.filter (fun c => is_numeric_dtype c)).map Column.name

/-- Non-null values of an object column; pandas `value_counts` and
`nunique` both drop nulls before counting. -/
def nonNull (vals : List (Option String)) : List String := vals.filterMap id

/-- Descending-count order on (category, count) pairs. -/
def cntGe (p q : String × Nat) : Prop := q.2 ≤ p.2

instance : DecidableRel cntGe := fun p q => Nat.decLe q.2 p.2

instance : IsTotal (String × Nat) cntGe := ⟨fun p q => Nat.le_total q.2 p.2⟩

instance : IsTrans (String × Nat) cntGe := ⟨fun _ _ _ h h2 => Nat.le_trans h2 h⟩

/-- Embedding of `series.value_counts()`: each distinct non-null value
paired with its occurrence count, sorted descending by count (a stable
sort of the distinct values). -/
def value_counts (vals : List (Option String)) : List (String × Nat) :=
  List.insertionSort cntGe
    ((nonNull vals).dedup.map (fun v => (v, (nonNull vals).count v)))

/-- Embedding of `series.nunique()`: the number of distinct non-null
values. -/
def nunique (vals : List (Option String)) : Nat := (nonNull vals).dedup.length

/-- Embedding of `series.nlargest(n)` applied to an already
descending-sorted `value_counts` result: its first `n` entries. -/
def nlargest (n : Nat) (counts : List (String × Nat)) : List (String × Nat) :=
  counts.take n

/-- A chart the script can render with `st.pyplot`.  The `timeSeries`
variant is the spec's TimeSeries analysis result, listed so theorems can
ask whether the script ever emits one. -/
inductive Chart where
  | histogramBox (col : String) (vals : List (Option ℚ))
  | scatter (x y : String)
  | countplot (col : String) (counts : List (String × Nat))
  | boxplotBy (num cat : String)
  | timeSeries (time value : String)
deriving DecidableEq, Repr

/-- One user-visible effect of an analysis pass. -/
inductive UIEvent where
  | chart (c : Chart)
  | downloadButton (fileName : String) (mime : String)
  | warningMsg (m : String)
  | infoMsg (m : String)
  | tableView (rows : List (String × Nat))
deriving DecidableEq, Repr

/-- Embedding of the helper `create_download_button(fig, file_name)`:
the figure is saved as PNG and offered under `file_name` with mime type
image/png. -/
def create_download_button (file_name : String) : UIEvent :=
  .downloadButton file_name "image/png"

/-- Embedding of `st.selectbox(label, options)` inside an expander: the
widget returns the user's pick when it is one of the options, otherwise
its default, the first option; only an empty option list yields no
value.  The script only calls it with a nonempty option list. -/
def selectbox (options : List String) (pick : Option String) : Option String :=
  match pick with
  | some p => if p ∈ options then some p else options.head?
  | none => options.head?

/-- Embedding of the scatter expander of the numeric branch: with no
other numeric column an `st.info` message is shown; otherwise a second
numeric column is picked and a scatter chart plus its download button
are rendered (the chart is skipped only for a falsy, i.e. empty, column
name). -/
def scatterExpander (df : Table) (selected_col : String) (pick : Option String) :
    List UIEvent :=
  let other_numeric_cols := (numeric_cols df).filter (fun col => col != selected_col)
  if other_numeric_cols.isEmpty then
    [.infoMsg "比較対象となる他の数値列がありません。"]
  else
    match selectbox other_numeric_cols pick with
    | some c2 =>
      if c2 ≠ "" then
        [.chart (.scatter selected_col c2),
         create_download_button ("scatter_" ++ selected_col ++ "_vs_" ++ c2 ++ ".png")]
      else []
    | none => []

/-- Embedding of the numeric branch: histogram + box plot of the column,
a download button for that figure, then the scatter expander. -/
def numericBranch (df : Table) (selected_col : String) (vals : List (Option ℚ))
    (scatterPick : Option String) : List UIEvent :=
  [.chart (.histogramBox selected_col vals),
   create_download_button ("distribution_" ++ selected_col ++ ".png")]
  ++ scatterExpander df selected_col scatterPick

/-- Embedding of the per-category box-plot expander of the `else`
branch: `st.info` when the table has no numeric column, `st.warning`
when the categorical column has more than 30 distinct values, otherwise
a numeric column is picked and a grouped box plot plus its download
button are rendered. -/
def boxExpander (df : Table) (selected_col : String) (unique_count : Nat)
    (pick : Option String) : List UIEvent :=
  let ncols := numeric_cols df
  if ncols.isEmpty then
    [.infoMsg "比較対象となる数値列がありません。"]
  else if unique_count > 30 then
    [.warningMsg "カテゴリ数が多すぎるため、箱ひげ図の描画はできません。"]
  else
    match selectbox ncols pick with
    | some c2 =>
      if c2 ≠ "" then
        [.chart (.boxplotBy c2 selected_col),
         create_download_button ("boxplot_" ++ selected_col ++ "_vs_" ++ c2 ++ ".png")]
      else []
    | none => []

/-- Embedding of the `else` (non-numeric) branch: with more than 30
distinct values an `st.warning` is shown and the top 30 of
`value_counts` are listed as a dataframe (no chart, no download);
otherwise a count plot in `value_counts` order plus its download button
are rendered.  Either way the box-plot expander follows. -/
def catBranch (df : Table) (selected_col : String) (vals : List (Option String))
    (boxPick : Option String) : List UIEvent :=
  let unique_count := nunique vals
  (if unique_count > 30 then
     [.warningMsg "カテゴリ数が30を超えているため、グラフの描画を停止しました。多すぎるカテゴリは分析に適さない可能性があります。",
      .tableView (nlargest 30 (value_counts vals))]
   else
     [.chart (.countplot selected_col (value_counts vals)),
      create_download_button ("countplot_" ++ selected_col ++ ".png")])
  ++ boxExpander df selected_col unique_count boxPick

/-- The spec's error taxonomy for the analyzer: InvalidColumn for an
absent column name, InsufficientData for a cross-analysis missing a
needed column type. -/
inductive AnalysisError where
  | invalidColumn
  | insufficientData
deriving DecidableEq, Repr

/-- Embedding of one full analysis pass for a selected column name: look
the column up (`KeyError`, i.e. InvalidColumn, when absent), then
dispatch on `is_numeric_dtype` between the numeric branch and the
`else` branch.  `scatterPick` and `boxPick` are the user's choices in
the two expander select boxes, `none` meaning the widget default. -/
def analyzeSelection (df : Table) (selected_col : String)
    (scatterPick boxPick : Option String) :
    Except AnalysisError (List UIEvent) :=
  match getCol df selected_col with
  | none => .error .invalidColumn
  | some c =>
    if is_numeric_dtype c then
      .ok (numericBranch df selected_col (numValsD c) scatterPick)
    else
      .ok (catBranch df selected_col (strVals c) boxPick)

/-- Payload of a successful analysis pass (empty for a failed one). -/
def okEvents (r : Except AnalysisError (List UIEvent)) : List UIEvent :=
  match r with
  | .ok evs => evs
  | .error _ => []

/-- Number of TimeSeries charts in an event list. -/
def countTimeSeries (evs : List UIEvent) : Nat :=
  (evs.filter (fun e =>
    match e with
    | .chart (.timeSeries _ _) => true
    | _ => false)).length

/-- The options offered by the main column picker,
`st.selectbox(label, df.columns)`: exactly the table's column names. -/
def selectboxOptions (df : Table) : List String := columnNames df

/-- The per-session state: `st.session_state.df`, `none` until a file
has been loaded successfully. -/
structure Session where
  df : Option Table
deriving DecidableEq, Repr

/-- Outcome of `pd.read_csv` / `pd.read_excel` on the uploaded file: a
parsed table, or the loader's error message. -/
inductive LoadResult where
  | ok (t : Table)
  | err (msg : String)
deriving DecidableEq, Repr

/-- The boundary message shown in the sidebar after an upload. -/
inductive BoundaryMsg where
  | successMsg
  | errorMsg (e : String)
deriving DecidableEq, Repr

/-- Embedding of the upload handler: on success the parsed table is
stored in `st.session_state.df` and a success message is shown; on
failure the exception is caught, an error message is shown, and the
session state is not touched. -/
def uploadStep (s : Session) (r : LoadResult) : Session × BoundaryMsg :=
  match r with
  | .ok t => (⟨some t⟩, .successMsg)
  | .err e => (s, .errorMsg ("ファイルの読み込み中にエラーが発生しました: " ++ e))

/-- Modelled from the spec: no correlation code ships in the source file
(the spec's overview mentions correlation heatmaps, and its testable
property speaks of "correlation computation"), so Pearson correlation is
modelled here from the spec's words.  `numericColumnsData` collects the
non-null values of each numeric column, in table order. -/
def numericColumnsData (df : Table) : List (List ℚ) :=
  df.filterMap (fun c =>
    match c.data with
    | .numericData v => some (v.filterMap id)
    | _ => none)

/-- Modelled from the spec: arithmetic mean of a value list. -/
def mean (xs : List ℚ) : ℚ := xs.sum / xs.length

/-- Modelled from the spec: sum of products of deviations from the mean,
the (unnormalised) covariance kernel of Pearson correlation; the
normalising factor cancels in the correlation quotient. -/
def sdev2 (xs ys : List ℚ) : ℚ :=
  (List.zipWith (fun x y => (x - mean xs) * (y - mean ys)) xs ys).sum

/-- Modelled from the spec: Pearson correlation coefficient of two value
lists. -/
noncomputable def corr (xs ys : List ℚ) : ℝ :=
  ((sdev2 xs ys : ℚ) : ℝ) / Real.sqrt (((sdev2 xs xs : ℚ) : ℝ) * ((sdev2 ys ys : ℚ) : ℝ))

/-- Modelled from the spec: the correlation matrix of a table's numeric
columns — with `n` numeric columns, the square `n × n` array whose
`(i, j)` entry is the correlation of columns `i` and `j`. -/
noncomputable def corrMatrix (df : Table) (i j : Nat) : ℝ :=
  corr ((numericColumnsData df).getD i []) ((numericColumnsData df).getD j [])

/-- Scenario table of the spec: `age` numeric 20, 30, 40 and `city`
categorical A, B, A. -/
def tableAgeCity : Table :=
  [⟨"age", .numericData [some 20, some 30, some 40]⟩,
   ⟨"city", .categoricalData [some "A", some "B", some "A"]⟩]

/-- A table whose only column is numeric: no second numeric column
exists for a scatter chart. -/
def tableAgeOnly : Table :=
  [⟨"age", .numericData [some 20, some 30, some 40]⟩]

/-- A table with 0 rows and one (categorical) column. -/
def tableNoRows : Table := [⟨"c", .categoricalData []⟩]

/-- A table with a datetime column and one numeric column. -/
def tableDateSales : Table :=
  [⟨"date", .datetimeData [some "2024-01-01", some "2024-01-02"]⟩,
   ⟨"sales", .numericData [some 100, some 200]⟩]

/-- A table whose categorical column has 31 distinct values. -/
def tableManyCats : Table :=
  [⟨"cat", .categoricalData ((List.range 31).map (fun i => some (toString i)))⟩]

/-- A table with two non-constant numeric columns. -/
def tableTwoNum : Table :=
  [⟨"x", .numericData [some 0, some 1]⟩,
   ⟨"y", .numericData [some 0, some 2]⟩]

/-- A table with two numeric columns, the first of them constant. -/
def tableConstCol : Table :=
  [⟨"x", .numericData [some 1, some 1]⟩,
   ⟨"y", .numericData [some 0, some 1]⟩]

instance {α β : Type} [DecidableEq α] [DecidableEq β] : DecidableEq (Except α β) :=
  fun a b =>
    match a, b with
    | .ok x, .ok y =>
      if h : x = y then isTrue (by rw [h]) else
        isFalse (by intro hh; cases hh; exact h rfl)
    | .error x, .error y =>
      if h : x = y then isTrue (by rw [h]) else
        isFalse (by intro hh; cases hh; exact h rfl)
    | .ok _, .error _ => isFalse (fun hh => Except.noConfusion hh)
    | .error _, .ok _ => isFalse (fun hh => Except.noConfusion hh)

lemma length_value_counts (vals : List (Option String)) :
    (value_counts vals).length = nunique vals := by
  simp [value_counts, nunique]

lemma sorted_value_counts (vals : List (Option String)) :
    List.Sorted cntGe (value_counts vals) :=
  List.sorted_insertionSort cntGe _

lemma sorted_nlargest (n : Nat) (L : List (String × Nat)) (h : List.Sorted cntGe L) :
    List.Sorted cntGe (nlargest n L) :=
  h.sublist (List.take_sublist n L)

lemma sum_value_counts (vals : List (Option String)) :
    ((value_counts vals).map Prod.snd).sum = (nonNull vals).length := by
  have hp : List.Perm (value_counts vals)
      ((nonNull vals).dedup.map (fun v => (v, (nonNull vals).count v))) :=
    List.perm_insertionSort _ _
  rw [(hp.map Prod.snd).sum_eq, List.map_map]
  simpa [Function.comp] using List.sum_map_count_dedup_eq_length (nonNull vals)

lemma getCol_isSome (df : Table) (sel : String) (hs : sel ∈ columnNames df) :
    (getCol df sel).isSome := by
  rcases List.mem_map.mp hs with ⟨c, hc, hname⟩
  unfold getCol
  rw [List.find?_isSome]
  exact ⟨c, hc, by simp [hname]⟩

lemma getCol_mem {df : Table} {sel : String} {c : Column}
    (h : getCol df sel = some c) : c ∈ df ∧ c.name = sel := by
  refine ⟨List.mem_of_find?_eq_some h, ?_⟩
  have := List.find?_some h
  simpa using this

lemma datetime_not_numeric {c : Column} (h : isDatetimeDtype c = true) :
    is_numeric_dtype c = false := by
  cases c with
  | mk n d => cases d <;> simp_all [isDatetimeDtype, is_numeric_dtype]

lemma countTimeSeries_append (a b : List UIEvent) :
    countTimeSeries (a ++ b) = countTimeSeries a + countTimeSeries b := by
  simp [countTimeSeries, List.filter_append]

lemma countTimeSeries_boxExpander (df : Table) (sel : String) (uc : Nat)
    (pick : Option String) : countTimeSeries (boxExpander df sel uc pick) = 0 := by
  unfold boxExpander
  dsimp only
  by_cases h1 : (numeric_cols df).isEmpty = true
  · rw [if_pos h1]; rfl
  · rw [if_neg h1]
    by_cases h2 : uc > 30
    · rw [if_pos h2]; rfl
    · rw [if_neg h2]
      cases hsb : selectbox (numeric_cols df) pick with
      | none => rfl
      | some c2 =>
        dsimp only
        by_cases h3 : c2 ≠ ""
        · rw [if_pos h3]; rfl
        · rw [if_neg h3]; rfl

lemma countTimeSeries_catBranch (df : Table) (sel : String)
    (vals : List (Option String)) (bp : Option String) :
    countTimeSeries (catBranch df sel vals bp) = 0 := by
  unfold catBranch
  dsimp only
  rw [countTimeSeries_append, countTimeSeries_boxExpander]
  by_cases h : nunique vals > 30
  · rw [if_pos h]; rfl
  · rw [if_neg h]; rfl

lemma scatter_download {df : Table} {sel fn m : String} {pick : Option String}
    (h : UIEvent.downloadButton fn m ∈ scatterExpander df sel pick) :
    m = "image/png" ∧ ∃ c2, fn = "scatter_" ++ sel ++ "_vs_" ++ c2 ++ ".png" := by
  unfold scatterExpander at h
  dsimp only at h
  by_cases h1 : ((numeric_cols df).filter (fun col => col != sel)).isEmpty = true
  · rw [if_pos h1] at h
    simp at h
  · rw [if_neg h1] at h
    cases hsb : selectbox ((numeric_cols df).filter (fun col => col != sel)) pick with
    | none => rw [hsb] at h; simp at h
    | some c2 =>
      rw [hsb] at h
      dsimp only at h
      by_cases h3 : c2 ≠ ""
      · rw [if_pos h3] at h
        simp [create_download_button] at h
        exact ⟨h.2, c2, h.1⟩
      · rw [if_neg h3] at h
        simp at h

lemma box_download {df : Table} {sel fn m : String} {uc : Nat} {pick : Option String}
    (h : UIEvent.downloadButton fn m ∈ boxExpander df sel uc pick) :
    m = "image/png" ∧ ∃ c2, fn = "boxplot_" ++ sel ++ "_vs_" ++ c2 ++ ".png" := by
  unfold boxExpander at h
  dsimp only at h
  by_cases h1 : (numeric_cols df).isEmpty = true
  · rw [if_pos h1] at h
    simp at h
  · rw [if_neg h1] at h
    by_cases h2 : uc > 30
    · rw [if_pos h2] at h
      simp at h
    · rw [if_neg h2] at h
      cases hsb : selectbox (numeric_cols df) pick with
      | none => rw [hsb] at h; simp at h
      | some c2 =>
        rw [hsb] at h
        dsimp only at h
        by_cases h3 : c2 ≠ ""
        · rw [if_pos h3] at h
          simp [create_download_button] at h
          exact ⟨h.2, c2, h.1⟩
        · rw [if_neg h3] at h
          simp at h

/-- C8: for the table with columns `age` (numeric 20, 30, 40) and `city`
(categorical A, B, A), selecting `city` yields the category counts
[(A, 2), (B, 1)] in that order — here shown inside the full event list
of the analysis pass. -/
theorem c8_age_city_counts :
    analyzeSelection tableAgeCity "city" none none =
      Except.ok [UIEvent.chart (Chart.countplot "city" [("A", 2), ("B", 1)]),
        UIEvent.downloadButton "countplot_city.png" "image/png",
        UIEvent.chart (Chart.boxplotBy "age" "city"),
        UIEvent.downloadButton "boxplot_city_vs_age.png" "image/png"] := by
  rfl

/-- C2 counterexample: a table with a datetime column and one numeric
column.  The claim demands exactly one TimeSeries result when the
datetime column is selected, but the dispatcher has no datetime branch:
the selection lands in the `else` branch (category counts) and zero
TimeSeries charts are produced. -/
theorem c2_counterexample :
    isDatetimeDtype (Column.mk "date"
      (.datetimeData [some "2024-01-01", some "2024-01-02"])) = true ∧
    getCol tableDateSales "date" = some (Column.mk "date"
      (.datetimeData [some "2024-01-01", some "2024-01-02"])) ∧
    (numeric_cols tableDateSales).length = 1 ∧
    countTimeSeries (okEvents (analyzeSelection tableDateSales "date" none none)) = 0 ∧
    countTimeSeries (okEvents (analyzeSelection tableDateSales "date" none none)) ≠
      (numeric_cols tableDateSales).length := by
  refine ⟨rfl, rfl, rfl, rfl, ?_⟩
  decide

/-- C2 amended: selecting a column whose inferred type is datetime runs
the `else` (categorical) branch — category counts, not time series — and
the analysis produces zero TimeSeries results, whatever the number of
numeric columns in the table. -/
theorem c2_datetime_dispatch (df : Table) (sel : String) (c : Column)
    (sp bp : Option String) (hc : getCol df sel = some c)
    (hd : isDatetimeDtype c = true) :
    ∃ evs, analyzeSelection df sel sp bp = .ok evs ∧
      evs = catBranch df sel (strVals c) bp ∧ countTimeSeries evs = 0 := by
  refine ⟨catBranch df sel (strVals c) bp, ?_, rfl, countTimeSeries_catBranch df sel _ bp⟩
  unfold analyzeSelection
  rw [hc]
  dsimp only
  rw [datetime_not_numeric hd]
  simp

/-- C2 witness: the amended theorem applied to the datetime column of
the date/sales table. -/
theorem c2_datetime_dispatch_witness :
    ∃ evs, analyzeSelection tableDateSales "date" none none = .ok evs ∧
      evs = catBranch tableDateSales "date"
        (strVals (Column.mk "date"
          (.datetimeData [some "2024-01-01", some "2024-01-02"]))) none ∧
      countTimeSeries evs = 0 :=
  c2_datetime_dispatch tableDateSales "date" _ none none rfl rfl

/-- C4 counterexample: a table whose only column is numeric.  Selecting
it, the scatter cross-analysis lacks a second numeric column; the claim
demands failure with InsufficientData, but the run succeeds with an
`st.info` message in place of the scatter chart. -/
theorem c4_counterexample :
    analyzeSelection tableAgeOnly "age" none none =
      Except.ok [UIEvent.chart (Chart.histogramBox "age" [some 20, some 30, some 40]),
        UIEvent.downloadButton "distribution_age.png" "image/png",
        UIEvent.infoMsg "比較対象となる他の数値列がありません。"] ∧
    analyzeSelection tableAgeOnly "age" none none ≠
      Except.error AnalysisError.insufficientData := by
  refine ⟨by rfl, ?_⟩
  decide

/-- C5 counterexample: the 0-row table with one column.  The claim
demands failure with InsufficientData on any selection, but the analysis
succeeds: an empty count plot, its download button, and an `st.info`
message from the box-plot expander. -/
theorem c5_counterexample :
    (∀ c ∈ tableNoRows, colLen c = 0) ∧
    analyzeSelection tableNoRows "c" none none =
      Except.ok [UIEvent.chart (Chart.countplot "c" []),
        UIEvent.downloadButton "countplot_c.png" "image/png",
        UIEvent.infoMsg "比較対象となる数値列がありません。"] ∧
    analyzeSelection tableNoRows "c" none none ≠
      Except.error AnalysisError.insufficientData := by
  refine ⟨by decide, by rfl, by decide⟩

/-- C5 amended: selecting any column of a 0-row table does not fail —
the analysis runs its normal branch on the empty value list and returns
an event list; no InsufficientData error is raised. -/
theorem c5_no_rows_still_ok (df : Table) (sel : String) (sp bp : Option String)
    (hrows : ∀ c ∈ df, colLen c = 0) (hs : sel ∈ selectboxOptions df) :
    (∃ evs, analyzeSelection df sel sp bp = .ok evs) ∧
    analyzeSelection df sel sp bp ≠ Except.error AnalysisError.insufficientData := by
  have hsome := getCol_isSome df sel hs
  rcases Option.isSome_iff_exists.mp hsome with ⟨c, hc⟩
  unfold analyzeSelection
  rw [hc]
  dsimp only
  by_cases hn : is_numeric_dtype c = true
  · rw [if_pos hn]
    exact ⟨⟨_, rfl⟩, by simp⟩
  · rw [if_neg hn]
    exact ⟨⟨_, rfl⟩, by simp⟩

/-- C5 witness: the amended theorem applied to the 0-row table. -/
theorem c5_no_rows_still_ok_witness :
    (∃ evs, analyzeSelection tableNoRows "c" none none = .ok evs) ∧
    analyzeSelection tableNoRows "c" none none ≠
      Except.error AnalysisError.insufficientData :=
  c5_no_rows_still_ok tableNoRows "c" none none (by decide) (by decide)

/-- C6 counterexample: when a load fails after an earlier successful
upload, the error is reported but `st.session_state.df` still holds the
previous table — it is not unset, and that table can still be
analyzed. -/
theorem c6_counterexample :
    (uploadStep ⟨some tableAgeOnly⟩ (.err "boom")).2 =
      BoundaryMsg.errorMsg "ファイルの読み込み中にエラーが発生しました: boom" ∧
    (uploadStep ⟨some tableAgeOnly⟩ (.err "boom")).1.df ≠ none := by
  refine ⟨rfl, ?_⟩
  decide

/-- C6 amended: a failed load is caught at the boundary and reported as
a user-visible error message, and the session state is left exactly as
it was — so the table remains unset only when no earlier load had
succeeded; a failed re-upload keeps the previous table. -/
theorem c6_failed_load_keeps_state (s : Session) (e : String) :
    (uploadStep s (.err e)).1 = s ∧
    (uploadStep s (.err e)).2 =
      BoundaryMsg.errorMsg ("ファイルの読み込み中にエラーが発生しました: " ++ e) :=
  ⟨rfl, rfl⟩

/-- C1: selecting a categorical column with more than 30 distinct
values surfaces the truncation warning and lists the top 30 entries of
`value_counts` — exactly 30 (category, count) pairs, sorted descending
by count. -/
theorem c1_high_cardinality_truncated (df : Table) (sel : String) (c : Column)
    (sp bp : Option String) (hc : getCol df sel = some c)
    (hn : is_numeric_dtype c = false) (h30 : 30 < nunique (strVals c)) :
    ∃ evs, analyzeSelection df sel sp bp = .ok evs ∧
      UIEvent.warningMsg "カテゴリ数が30を超えているため、グラフの描画を停止しました。多すぎるカテゴリは分析に適さない可能性があります。" ∈ evs ∧
      UIEvent.tableView (nlargest 30 (value_counts (strVals c))) ∈ evs ∧
      (nlargest 30 (value_counts (strVals c))).length = 30 ∧
      List.Sorted cntGe (nlargest 30 (value_counts (strVals c))) := by
  refine ⟨catBranch df sel (strVals c) bp, ?_, ?_, ?_, ?_, ?_⟩
  · unfold analyzeSelection
    rw [hc]
    dsimp only
    rw [hn]
    simp
  · unfold catBranch
    dsimp only
    rw [if_pos h30]
    simp
  · unfold catBranch
    dsimp only
    rw [if_pos h30]
    simp
  · simp [nlargest, length_value_counts]
    omega
  · exact sorted_nlargest 30 _ (sorted_value_counts _)

/-- C1 witness: the table whose categorical column holds 31 distinct
values. -/
theorem c1_high_cardinality_truncated_witness :
    ∃ evs, analyzeSelection tableManyCats "cat" none none = .ok evs ∧
      UIEvent.warningMsg "カテゴリ数が30を超えているため、グラフの描画を停止しました。多すぎるカテゴリは分析に適さない可能性があります。" ∈ evs ∧
      UIEvent.tableView (nlargest 30 (value_counts
        (strVals (Column.mk "cat"
          (.categoricalData ((List.range 31).map (fun i => some (toString i)))))))) ∈ evs ∧
      (nlargest 30 (value_counts
        (strVals (Column.mk "cat"
          (.categoricalData ((List.range 31).map (fun i => some (toString i)))))))).length = 30 ∧
      List.Sorted cntGe (nlargest 30 (value_counts
        (strVals (Column.mk "cat"
          (.categoricalData ((List.range 31).map (fun i => some (toString i)))))))) :=
  c1_high_cardinality_truncated tableManyCats "cat" _ none none rfl rfl (by decide)

/-- C3: selecting a categorical column with at most 30 distinct values
renders the count plot over the full `value_counts` list, whose counts
sum to the column's number of non-null rows. -/
theorem c3_counts_sum_nonnull (df : Table) (sel : String) (c : Column)
    (sp bp : Option String) (hc : getCol df sel = some c)
    (hn : is_numeric_dtype c = false) (h30 : nunique (strVals c) ≤ 30) :
    ∃ evs, analyzeSelection df sel sp bp = .ok evs ∧
      UIEvent.chart (Chart.countplot sel (value_counts (strVals c))) ∈ evs ∧
      ((value_counts (strVals c)).map Prod.snd).sum = (nonNull (strVals c)).length := by
  refine ⟨catBranch df sel (strVals c) bp, ?_, ?_, sum_value_counts _⟩
  · unfold analyzeSelection
    rw [hc]
    dsimp only
    rw [hn]
    simp
  · unfold catBranch
    dsimp only
    rw [if_neg (Nat.not_lt.mpr h30)]
    simp

/-- C3 witness: the `city` column of the age/city table. -/
theorem c3_counts_sum_nonnull_witness :
    ∃ evs, analyzeSelection tableAgeCity "city" none none = .ok evs ∧
      UIEvent.chart (Chart.countplot "city" (value_counts
        (strVals (Column.mk "city"
          (.categoricalData [some "A", some "B", some "A"]))))) ∈ evs ∧
      ((value_counts (strVals (Column.mk "city"
          (.categoricalData [some "A", some "B", some "A"])))).map Prod.snd).sum =
        (nonNull (strVals (Column.mk "city"
          (.categoricalData [some "A", some "B", some "A"])))).length :=
  c3_counts_sum_nonnull tableAgeCity "city" _ none none rfl rfl (by decide)

/-- C10: the column picker offers exactly the table's column names, so
any selection the interface permits resolves to a present column and the
analysis never fails with InvalidColumn. -/
theorem c10_selection_always_valid (df : Table) (sel : String)
    (sp bp : Option String) (hs : sel ∈ selectboxOptions df) :
    (getCol df sel).isSome = true ∧
    analyzeSelection df sel sp bp ≠ Except.error AnalysisError.invalidColumn := by
  have hsome := getCol_isSome df sel hs
  refine ⟨hsome, ?_⟩
  rcases Option.isSome_iff_exists.mp hsome with ⟨c, hc⟩
  unfold analyzeSelection
  rw [hc]
  dsimp only
  by_cases hn : is_numeric_dtype c = true
  · rw [if_pos hn]; simp
  · rw [if_neg hn]; simp

/-- C10 witness: the `age` column of the age/city table. -/
theorem c10_selection_always_valid_witness :
    (getCol tableAgeCity "age").isSome = true ∧
    analyzeSelection tableAgeCity "age" none none ≠
      Except.error AnalysisError.invalidColumn :=
  c10_selection_always_valid tableAgeCity "age" none none (by decide)

/-- C4 amended: when the table offers no numeric column besides the
selected one, the affected cross-analysis (scatter for a numeric
selection, per-category box plot for a categorical one) is reported to
the caller with an `st.info` message — the analysis succeeds instead of
failing with InsufficientData, and the condition is not a silent
no-op. -/
theorem c4_missing_type_reported (df : Table) (sel : String) (sp bp : Option String)
    (hnodup : (columnNames df).Nodup) (hs : sel ∈ selectboxOptions df)
    (hno : (numeric_cols df).filter (fun col => col != sel) = []) :
    ∃ evs, analyzeSelection df sel sp bp = .ok evs ∧ ∃ m, UIEvent.infoMsg m ∈ evs := by
  have hsome := getCol_isSome df sel hs
  rcases Option.isSome_iff_exists.mp hsome with ⟨c, hc⟩
  obtain ⟨hcmem, hcname⟩ := getCol_mem hc
  unfold analyzeSelection
  rw [hc]
  dsimp only
  by_cases hn : is_numeric_dtype c = true
  · rw [if_pos hn]
    refine ⟨_, rfl, "比較対象となる他の数値列がありません。", ?_⟩
    unfold numericBranch scatterExpander
    dsimp only
    rw [hno]
    simp
  · rw [if_neg hn]
    have hempty : numeric_cols df = [] := by
      cases hcols : numeric_cols df with
      | nil => rfl
      | cons a as =>
        exfalso
        have ha : a ∈ numeric_cols df := by
          rw [hcols]
          exact List.mem_cons_self a as
        have hasel : a = sel := by
          by_contra hne
          have hmem : a ∈ (numeric_cols df).filter (fun col => col != sel) :=
            List.mem_filter.mpr ⟨ha, by simp [hne]⟩
          rw [hno] at hmem
          exact (List.not_mem_nil a) hmem
        simp only [numeric_cols] at ha
        rcases List.mem_map.mp ha with ⟨c2, hc2f, hc2name⟩
        rcases List.mem_filter.mp hc2f with ⟨hc2mem, hc2num⟩
        have heq : c2 = c :=
          List.inj_on_of_nodup_map hnodup hc2mem hcmem
            (by rw [hc2name, hasel, hcname])
        rw [heq] at hc2num
        exact hn (by simpa using hc2num)
    refine ⟨_, rfl, "比較対象となる数値列がありません。", ?_⟩
    unfold catBranch boxExpander
    dsimp only
    rw [hempty]
    simp

/-- C4 witness: the single-numeric-column table, selecting its only
column. -/
theorem c4_missing_type_reported_witness :
    ∃ evs, analyzeSelection tableAgeOnly "age" none none = .ok evs ∧
      ∃ m, UIEvent.infoMsg m ∈ evs :=
  c4_missing_type_reported tableAgeOnly "age" none none (by decide) (by decide) (by decide)

/-- C9: every download button produced by an analysis pass offers a PNG
(mime image/png) whose file name follows the pattern
chart-kind, underscore, selected column, optionally "_vs_" and the
comparison column, then ".png". -/
theorem c9_download_names (df : Table) (sel : String) (sp bp : Option String)
    (evs : List UIEvent) (fn m : String)
    (h : analyzeSelection df sel sp bp = .ok evs)
    (hm : UIEvent.downloadButton fn m ∈ evs) :
    m = "image/png" ∧
      (fn = "distribution_" ++ sel ++ ".png" ∨
       fn = "countplot_" ++ sel ++ ".png" ∨
       (∃ c2, fn = "scatter_" ++ sel ++ "_vs_" ++ c2 ++ ".png") ∨
       (∃ c2, fn = "boxplot_" ++ sel ++ "_vs_" ++ c2 ++ ".png")) := by
  unfold analyzeSelection at h
  cases hg : getCol df sel with
  | none =>
    rw [hg] at h
    exact absurd h (by simp)
  | some c =>
    rw [hg] at h
    dsimp only at h
    by_cases hn : is_numeric_dtype c = true
    · rw [if_pos hn] at h
      injection h with h'
      rw [← h'] at hm
      unfold numericBranch at hm
      rw [List.mem_append] at hm
      rcases hm with hm | hm
      · simp [create_download_button] at hm
        exact ⟨hm.2, Or.inl hm.1⟩
      · obtain ⟨hmime, c2, hfn⟩ := scatter_download hm
        exact ⟨hmime, Or.inr (Or.inr (Or.inl ⟨c2, hfn⟩))⟩
    · rw [if_neg hn] at h
      injection h with h'
      rw [← h'] at hm
      unfold catBranch at hm
      dsimp only at hm
      rw [List.mem_append] at hm
      rcases hm with hm | hm
      · by_cases h30 : nunique (strVals c) > 30
        · rw [if_pos h30] at hm
          simp at hm
        · rw [if_neg h30] at hm
          simp [create_download_button] at hm
          exact ⟨hm.2, Or.inr (Or.inl hm.1)⟩
      · obtain ⟨hmime, c2, hfn⟩ := box_download hm
        exact ⟨hmime, Or.inr (Or.inr (Or.inr ⟨c2, hfn⟩))⟩

/-- C9 witness: the count-plot download of the age/city table. -/
theorem c9_download_names_witness :
    "image/png" = "image/png" ∧
      ("countplot_city.png" = "distribution_" ++ "city" ++ ".png" ∨
       "countplot_city.png" = "countplot_" ++ "city" ++ ".png" ∨
       (∃ c2, "countplot_city.png" = "scatter_" ++ "city" ++ "_vs_" ++ c2 ++ ".png") ∨
       (∃ c2, "countplot_city.png" = "boxplot_" ++ "city" ++ "_vs_" ++ c2 ++ ".png")) :=
  c9_download_names tableAgeCity "city" none none
    [UIEvent.chart (Chart.countplot "city" [("A", 2), ("B", 1)]),
     UIEvent.downloadButton "countplot_city.png" "image/png",
     UIEvent.chart (Chart.boxplotBy "age" "city"),
     UIEvent.downloadButton "boxplot_city_vs_age.png" "image/png"]
    "countplot_city.png" "image/png" (by rfl) (by decide)

lemma sdev2_comm (xs ys : List ℚ) : sdev2 xs ys = sdev2 ys xs := by
  unfold sdev2
  rw [List.zipWith_comm]
  congr 1
  congr 1
  funext a b
  ring

lemma corr_comm (xs ys : List ℚ) : corr xs ys = corr ys xs := by
  unfold corr
  rw [sdev2_comm xs ys, mul_comm]

lemma corr_self (xs : List ℚ) (h : 0 < sdev2 xs xs) : corr xs xs = 1 := by
  unfold corr
  have h0 : (0 : ℝ) < ((sdev2 xs xs : ℚ) : ℝ) := by exact_mod_cast h
  rw [Real.sqrt_mul_self (le_of_lt h0)]
  exact div_self (ne_of_gt h0)

/-- C7 counterexample: a table with two numeric columns whose first
column is constant.  Its variance kernel is zero, so the corresponding
diagonal entry of the correlation matrix is 0 (pandas reports NaN
there), not 1.0, although the table has at least 2 numeric columns. -/
theorem c7_counterexample :
    2 ≤ (numericColumnsData tableConstCol).length ∧
    corrMatrix tableConstCol 0 0 ≠ 1 := by
  refine ⟨by decide, ?_⟩
  have hd : (numericColumnsData tableConstCol).getD 0 ([] : List ℚ) = [1, 1] := by decide
  unfold corrMatrix corr
  rw [hd]
  have hs : sdev2 [(1 : ℚ), 1] [(1 : ℚ), 1] = 0 := by
    norm_num [sdev2, mean]
  rw [hs]
  norm_num [Real.sqrt_zero]

/-- C7 amended: for every table and every position below the number of
numeric columns, provided each numeric column is non-constant (positive
variance kernel), the square correlation matrix over the numeric
columns is symmetric and carries 1.0 on the diagonal. -/
theorem c7_corr_symm_diag_one (df : Table) (i j : Nat)
    (h2 : 2 ≤ (numericColumnsData df).length)
    (hvar : ∀ xs ∈ numericColumnsData df, 0 < sdev2 xs xs)
    (hi : i < (numericColumnsData df).length) :
    corrMatrix df i j = corrMatrix df j i ∧ corrMatrix df i i = 1 := by
  constructor
  · unfold corrMatrix
    exact corr_comm _ _
  · unfold corrMatrix
    apply corr_self
    apply hvar
    have hg : (numericColumnsData df).getD i [] = (numericColumnsData df)[i] := by
      simp [List.getD_eq_getElem?_getD, List.getElem?_eq_getElem hi]
    rw [hg]
    exact List.getElem_mem hi

/-- C7 witness: the two-column non-constant table. -/
theorem c7_corr_symm_diag_one_witness :
    corrMatrix tableTwoNum 0 1 = corrMatrix tableTwoNum 1 0 ∧
    corrMatrix tableTwoNum 0 0 = 1 :=
  c7_corr_symm_diag_one tableTwoNum 0 1 (by decide)
    (by
      intro xs hxs
      have hlist : numericColumnsData tableTwoNum = [[0, 1], [0, 2]] := by decide
      rw [hlist] at hxs
      simp at hxs
      rcases hxs with h | h <;> rw [h] <;> norm_num [sdev2, mean])
    (by decide)

end EDA
